import Mathlib

/-!
Shallow embedding of the live capture-transcribe-translate pipeline of
`src/transcriber.py` (classes `AudioRecorder`, `WhisperTranscriber`,
`Translator`, `VoiceProcessor`), together with the display-side check of
`main.py` that interprets an emitted translation.

Audio chunks are opaque payloads (modelled as `Nat` identifiers, or a type
parameter where nothing about the payload matters); the two external API
calls (Whisper transcription, GPT translation) are modelled as oracle
outcomes fed into each processing cycle, exactly at the points where the
Python code consumes their results.
-/

namespace VrSoftware

/-! ## Python string trimming

`str.strip()` removes leading and trailing whitespace.  Modelled on the
character list underlying the string. -/

/-- Strip leading and trailing characters satisfying `p` from a list. -/
def stripWhile (p : α → Bool) (l : List α) : List α :=
  ((l.dropWhile p).reverse.dropWhile p).reverse

/-- Python `s.strip()`: drop leading whitespace, then drop trailing
whitespace (via reverse). -/
def pyStrip (s : String) : String :=
  ⟨stripWhile Char.isWhitespace s.data⟩

/-- Python `s.lower()`: lowercase every character (modelled character-wise
on the underlying list, which agrees with ASCII lowering). -/
def pyLower (s : String) : String :=
  ⟨s.data.map Char.toLower⟩

/-! ## Rolling audio buffer (`AudioRecorder._record`, continuous mode)

In continuous mode the recorder keeps `self.frames` bounded:

```
max_frames = int(self.rate / self.chunk * self.buffer_seconds)
...
self.frames.append(data)
if len(self.frames) > max_frames:
    self.frames = self.frames[-max_frames:]
```

`frames[-m:]` for `m ≥ 1` is `drop (len - m)`; the bound `max_frames` is
129 for the default configuration, so the `m = 0` Python slicing quirk
(`[-0:]` keeps everything) is outside the configured behaviour, and the
theorems below carry the hypothesis `1 ≤ max_frames`. -/

/-- Default sample rate of `AudioRecorder.__init__` (`rate=44100`). -/
def defaultRate : Nat := 44100

/-- Default frames-per-buffer of `AudioRecorder.__init__` (`chunk=1024`). -/
def defaultChunk : Nat := 1024

/-- Default rolling bound of `AudioRecorder.__init__` (`buffer_seconds = 3`). -/
def defaultBufferSeconds : Nat := 3

/-- Derived bound `max_frames = int(self.rate / self.chunk * self.buffer_seconds)`.
With the defaults, Python computes `int(44100/1024*3) = int(129.19...) = 129`,
and the floored Nat computation `44100 / 1024 * 3 = 43 * 3` gives the same 129. -/
def defaultMaxFrames : Nat := defaultRate / defaultChunk * defaultBufferSeconds

/-- One continuous-mode append (`AudioRecorder._record`, lines 134-140):
append the chunk, then keep only the most recent `max_frames` chunks. -/
def rollingAppend (max_frames : Nat) (frames : List α) (data : α) : List α :=
  let frames := frames ++ [data]
  if max_frames < frames.length then frames.drop (frames.length - max_frames) else frames

/-- The capture loop appending a whole sequence of chunks, starting from the
empty buffer (`self.frames = []` in `start_recording`). -/
def rollingRecord (max_frames : Nat) (chunks : List α) : List α :=
  chunks.foldl (rollingAppend max_frames) []

/-- Atomic drain of the shared frame buffer
(`VoiceProcessor._live_processing_loop`, lines 499-502: under
`frames_lock`, `frames_copy = self.recorder.frames.copy();
self.recorder.frames.clear()`).  Returns the drained chunks and the new
(empty) buffer contents. -/
def drainAll (frames : List α) : List α × List α :=
  (frames, [])

/-! ## Language normalisation (`_live_processing_loop`, lines 544-560) -/

/-- The fixed table `language_code_map` (lines 544-554). -/
def language_code_map : List (String × String) :=
  [("english", "en"), ("russian", "ru"), ("spanish", "es"), ("french", "fr"),
   ("german", "de"), ("japanese", "ja"), ("italian", "it"), ("chinese", "zh"),
   ("korean", "ko")]

/-- Standardisation of the raw detected language (lines 556-560):

```
if detected_lang and detected_lang.lower() in language_code_map:
    detected_lang_code = language_code_map[detected_lang.lower()]
else:
    detected_lang_code = detected_lang.lower() if detected_lang else None
```

An empty raw string is falsy in Python, giving `None` (here `none`). -/
def standardizeLang (detected_lang : String) : Option String :=
  if detected_lang ≠ "" then
    match language_code_map.lookup (pyLower detected_lang) with
    | some code => some code
    | none => some (pyLower detected_lang)
  else none

/-! ## External API calls as oracle outcomes -/

/-- Outcome of one OpenAI API call: the call either raises an exception or
returns a payload string. -/
inductive ApiOutcome where
  | raises
  | returns (text : String)
deriving DecidableEq, Repr

/-- Outcome of one Whisper transcription request: raises, or returns the
transcription text together with the reported detected language. -/
inductive SttOutcome where
  | raises
  | returns (text : String) (lang : String)
deriving DecidableEq, Repr

/-- Value of `self.transcriber.transcribe(...)` at the call site
(`WhisperTranscriber.transcribe`): every exception is caught (lines 368-373)
and turned into the pair `("", "")`; otherwise the text and detected
language are returned (line 354 / 366). -/
def transcribeResult : SttOutcome → String × String
  | .raises => ("", "")
  | .returns text lang => (text, lang)

/-- Value of `self.translator.translate(text, src, tgt)` at the call site
(`Translator.translate`): empty or whitespace-only input short-circuits to
`""` (lines 391-393); an exception from the API is caught and yields `""`
(lines 439-443); otherwise the returned message content is stripped
(line 418) and returned. -/
def translateResult (text : String) (outcome : ApiOutcome) : String :=
  if pyStrip text = "" then ""
  else
    match outcome with
    | .raises => ""
    | .returns content => pyStrip content

/-! ## Translation routing (`_live_processing_loop`, lines 562-584) -/

/-- Python truthiness of an `Optional[str]`. -/
def truthy : Option String → Bool
  | none => false
  | some s => s ≠ ""

/-- Effective source language, line 563:
`actual_source_lang = source_lang or detected_lang_code or "en"`.
(Computed by the loop but never used afterwards.) -/
def actualSourceLang (source_lang detected_lang_code : Option String) : String :=
  if truthy source_lang then source_lang.getD ""
  else if truthy detected_lang_code then detected_lang_code.getD ""
  else "en"

/-- The routing decision of lines 566-584: `some (src, tgt)` when the loop
calls the translator with that language pair, `none` when `translation`
stays `None`.

```
translation = None
if target_lang and transcription and detected_lang_code:
    if target_lang == "ru" and detected_lang_code == "en":
        translation = self.translator.translate(transcription, "en", "ru")
    elif target_lang == "en" and detected_lang_code == "ru":
        translation = self.translator.translate(transcription, "ru", "en")
    elif detected_lang_code not in ["en", "ru"]:
        translation = self.translator.translate(transcription, detected_lang_code, target_lang)
```
-/
def routeDecision (target_lang : Option String) (transcription : String)
    (detected_lang_code : Option String) : Option (String × String) :=
  if truthy target_lang ∧ transcription ≠ "" ∧ truthy detected_lang_code then
    let tgt := target_lang.getD ""
    let det := detected_lang_code.getD ""
    if tgt = "ru" ∧ det = "en" then some ("en", "ru")
    else if tgt = "en" ∧ det = "ru" then some ("ru", "en")
    else if det ≠ "en" ∧ det ≠ "ru" then some (det, tgt)
    else none
  else none

/-- Translation-pair decision of the one-shot `process_voice` path when no
target language is given (lines 663-667):

```
elif detected_language and "english" in detected_language.lower():
    translation = self.translator.translate(transcription, "en", "ru")
elif detected_language and "russian" in detected_language.lower():
    translation = self.translator.translate(transcription, "ru", "en")
```

`"english" in s` is a substring test. -/
def processVoiceFallbackPair (detected_language : String) : Option (String × String) :=
  if detected_language ≠ "" ∧ "english".data <:+: (pyLower detected_language).data then
    some ("en", "ru")
  else if detected_language ≠ "" ∧ "russian".data <:+: (pyLower detected_language).data then
    some ("ru", "en")
  else none

/-- Display-side interpretation of an emitted translation
(`main.py`, line 368: `translation is None or translation == ""`): the
callback consumer treats `None` and the empty string alike as an absent
translation. -/
def translationAbsent : Option String → Bool
  | none => true
  | some s => s = ""

/-! ## One live processing cycle (`VoiceProcessor._live_processing_loop`)

A cycle runs once the poll interval has elapsed and the recorder holds
frames.  Its external inputs are the drained frames, the transcription
outcome, the translation-API outcome (consulted only when routing indicates
a translation), and the behaviour of the registered callback. -/

/-- Behaviour of `self.callback` for one cycle: not registered
(`self.callback` falsy, line 593), invoked and returning normally, or
invoked and raising (the exception is caught by the handler at line 597). -/
inductive CallbackBehavior where
  | absent
  | succeeds
  | raises
deriving DecidableEq, Repr

/-- The triple handed to the callback at line 595:
`self.callback(transcription, translation, detected_lang)` —
the raw transcription, the translation variable (`None`, a translated
string, or `""` after a failed translation), and the raw detected
language. -/
structure LiveResult where
  transcript : String
  translation : Option String
  detectedLang : String
deriving DecidableEq, Repr

/-- External inputs consumed by one processing cycle. -/
structure CycleInput where
  frames : List Nat
  stt : SttOutcome
  translationApi : ApiOutcome
  callback : CallbackBehavior
deriving DecidableEq, Repr

/-- Result of one processing cycle: the new `last_transcription` and the
payload the callback was invoked with (`none` when no callback fired). -/
structure CycleOutput where
  last : String
  emitted : Option LiveResult
deriving DecidableEq, Repr

/-- One cycle of `_live_processing_loop` (lines 495-598), with
`last_transcription` as the carried state:

* line 506: skip unless `len(frames_copy) > 5`;
* line 525: transcribe (exceptions already absorbed, `transcribeResult`);
* lines 528-530: skip if the stripped transcription is empty;
* lines 533-535: skip if it equals the stripped previous transcription;
* line 538: update `last_transcription` to the stripped transcription;
* lines 556-560: standardise the detected language;
* lines 562-584: decide routing and, when indicated, call the translator
  (`translateResult`);
* lines 593-595: if a callback is registered, invoke it — a callback
  exception is caught by the cycle handler (lines 597-598) after
  `last_transcription` was already updated. -/
def processCycle (source_lang target_lang : Option String) (last_transcription : String)
    (inp : CycleInput) : CycleOutput :=
  if inp.frames.length ≤ 5 then ⟨last_transcription, none⟩
  else
    let tr := transcribeResult inp.stt
    let transcription := tr.1
    let detected_lang := tr.2
    if pyStrip transcription = "" then ⟨last_transcription, none⟩
    else if pyStrip transcription = pyStrip last_transcription then ⟨last_transcription, none⟩
    else
      let last := pyStrip transcription
      let detected_lang_code := standardizeLang detected_lang
      let translation : Option String :=
        match routeDecision target_lang transcription detected_lang_code with
        | some _ => some (translateResult transcription inp.translationApi)
        | none => none
      match inp.callback with
      | .absent => ⟨last, none⟩
      | _ => ⟨last, some ⟨transcription, translation, detected_lang⟩⟩

/-- Dead parameter: `source_lang` is also used at line 563 to compute
`actual_source_lang`, which the loop never reads afterwards; `processCycle`
carries it for faithfulness. -/
def cycleSourceUnused : Prop :=
  ∀ s₁ s₂ t l i, processCycle s₁ t l i = processCycle s₂ t l i

/-- The processing loop over a sequence of cycle inputs, collecting the
callback payloads in emission order.  Every cycle returns normally (all
exceptions are absorbed inside the cycle), so the loop always proceeds to
the next cycle; only cancellation ends it (modelled by the end of the
input list). -/
def runLoop (source_lang target_lang : Option String) (last : String) :
    List CycleInput → List LiveResult
  | [] => []
  | inp :: rest =>
    let out := processCycle source_lang target_lang last inp
    out.emitted.toList ++ runLoop source_lang target_lang out.last rest

/-! ## Interleavings of appends and drains

The capture loop appends (with the rolling bound) and the processing loop
drains; both operate on the single shared `frames` list under
`frames_lock`.  A trace interleaves the two operations; `window` is the
ghost list of chunks appended since the last drain. -/

/-- One shared-buffer operation: a capture-loop append or a
processing-loop drain. -/
inductive BufOp where
  | app (c : Nat)
  | drain
deriving DecidableEq, Repr

/-- Trace state: the shared buffer, the ghost window of chunks appended
since the previous drain, and the list of drain outputs so far. -/
structure BufState where
  buffer : List Nat
  window : List Nat
  outs : List (List Nat)
deriving DecidableEq, Repr

/-- The untouched initial state (`self.frames = []`). -/
def initBufState : BufState := ⟨[], [], []⟩

/-- Apply one operation: an append goes through `rollingAppend`, a drain
through `drainAll`. -/
def stepBuf (max_frames : Nat) (s : BufState) : BufOp → BufState
  | .app c => ⟨rollingAppend max_frames s.buffer c, s.window ++ [c], s.outs⟩
  | .drain => ⟨(drainAll s.buffer).2, [], s.outs ++ [(drainAll s.buffer).1]⟩

/-- Run a whole interleaving of appends and drains. -/
def runBuf (max_frames : Nat) (s : BufState) (ops : List BufOp) : BufState :=
  ops.foldl (stepBuf max_frames) s

/-! ## Session lifecycle (`start_live_transcription` / `stop_live_transcription`) -/

/-- Observable state of a `VoiceProcessor` session: the `live_mode` and
`should_process` flags, the recorder's `is_recording` flag, and the number
of capture/processing thread pairs launched and not yet stopped. -/
structure VPState where
  live_mode : Bool
  should_process : Bool
  recording : Bool
  activePairs : Nat
deriving DecidableEq, Repr

/-- State after `VoiceProcessor.__init__` (plus the recorder construction):
idle, nothing running. -/
def initialVPState : VPState := ⟨false, false, false, 0⟩

/-- `start_live_transcription` (lines 457-481): returns immediately if
`self.live_mode` is set; otherwise sets both flags, starts the recorder in
continuous mode and launches the processing thread (one new
capture/processing pair). -/
def start_live_transcription (s : VPState) : VPState :=
  if s.live_mode then s
  else ⟨true, true, true, s.activePairs + 1⟩

/-- `stop_live_transcription` (lines 603-618): returns immediately if
`self.live_mode` is clear; otherwise clears both flags, stops the recorder
and joins the processing thread with `timeout=1.0`.  The state transition
does not depend on whether the bounded join completed, which the unused
`joinCompleted` argument records. -/
def stop_live_transcription (s : VPState) (joinCompleted : Bool) : VPState :=
  if !s.live_mode then s
  else ⟨false, false, false, s.activePairs - 1⟩

/-! ## Helper lemmas -/

/-- A list whose head does not satisfy `p` is unchanged by `dropWhile p`. -/
theorem dropWhile_eq_self_of_head (p : α → Bool) :
    ∀ l : List α, (match l.head? with | some a => p a = false | none => True) →
      l.dropWhile p = l
  | [], _ => rfl
  | a :: t, h => by
    simp only [List.head?] at h
    simp [List.dropWhile_cons, h]

/-- Lemma `dropWhile` is idempotent. -/
theorem dropWhile_idem (p : α → Bool) (l : List α) :
    (l.dropWhile p).dropWhile p = l.dropWhile p :=
  dropWhile_eq_self_of_head p _ (List.head?_dropWhile_not p l)

/-- Lemma `dropWhile` keeps the last element of a list it does not empty. -/
theorem getLast?_dropWhile_of_ne_nil (p : α → Bool) (l : List α)
    (h : l.dropWhile p ≠ []) : (l.dropWhile p).getLast? = l.getLast? := by
  obtain ⟨t, ht⟩ := List.dropWhile_suffix p (l := l)
  conv_rhs => rw [← ht]
  rw [List.getLast?_append_of_ne_nil _ h]

/-- Lemma `stripWhile` is idempotent. -/
theorem stripWhile_idem (p : α → Bool) (l : List α) :
    stripWhile p (stripWhile p l) = stripWhile p l := by
  unfold stripWhile
  set n := l.dropWhile p with hn
  set m := n.reverse.dropWhile p with hm
  have hfix : m.reverse.dropWhile p = m.reverse := by
    by_cases hne : m = []
    · rw [hne]; rfl
    · apply dropWhile_eq_self_of_head
      have h1 : m.reverse.head? = m.getLast? := List.head?_reverse m
      have h2 : m.getLast? = n.reverse.getLast? := getLast?_dropWhile_of_ne_nil p n.reverse hne
      have h3 : n.reverse.getLast? = n.head? := List.getLast?_reverse n
      have h4 := List.head?_dropWhile_not p l
      rw [← hn] at h4
      rw [h1, h2, h3]
      rcases h5 : n.head? with _ | a
      · trivial
      · rw [h5] at h4; exact h4
  rw [hfix, List.reverse_reverse]
  rw [dropWhile_idem]

/-- Stripping is idempotent, as in Python: `s.strip().strip() == s.strip()`. -/
theorem pyStrip_idem (s : String) : pyStrip (pyStrip s) = pyStrip s :=
  congrArg String.mk (stripWhile_idem Char.isWhitespace s.data)

/-- Appending one chunk to a buffer that is the rolled suffix of `w` gives
the rolled suffix of `w ++ [c]`. -/
theorem rollingAppend_drop (m : Nat) (hm : 1 ≤ m) (w : List α) (c : α) :
    rollingAppend m (w.drop (w.length - m)) c =
      (w ++ [c]).drop ((w ++ [c]).length - m) := by
  unfold rollingAppend
  have hle : w.length - m ≤ w.length := Nat.sub_le _ _
  by_cases hc : m < (w.drop (w.length - m) ++ [c]).length
  · rw [if_pos hc]
    have h1 : w.drop (w.length - m) ++ [c] = (w ++ [c]).drop (w.length - m) := by
      rw [List.drop_append_of_le_length hle]
    rw [h1, List.drop_drop]
    congr 1
    simp only [List.length_append, List.length_drop, List.length_singleton] at hc ⊢
    omega
  · rw [if_neg hc]
    have h1 : w.drop (w.length - m) ++ [c] = (w ++ [c]).drop (w.length - m) := by
      rw [List.drop_append_of_le_length hle]
    rw [h1]
    congr 1
    simp only [List.length_append, List.length_drop, List.length_singleton] at hc ⊢
    omega

/-- Folding `rollingAppend` from a rolled suffix computes the rolled suffix
of the whole appended sequence. -/
theorem rollingRecord_go (m : Nat) (hm : 1 ≤ m) :
    ∀ (cs w : List α),
      cs.foldl (rollingAppend m) (w.drop (w.length - m)) =
        (w ++ cs).drop ((w ++ cs).length - m)
  | [], w => by simp
  | c :: cs, w => by
    rw [List.foldl_cons, rollingAppend_drop m hm w c, rollingRecord_go m hm cs (w ++ [c])]
    simp

/-- The rolling buffer after appending `cs` from empty is exactly the last
`m` chunks of `cs` (all of `cs` when it is no longer than `m`). -/
theorem rollingRecord_eq (m : Nat) (hm : 1 ≤ m) (cs : List α) :
    rollingRecord m cs = cs.drop (cs.length - m) := by
  have := rollingRecord_go m hm cs []
  simpa [rollingRecord] using this

/-- Buffer-trace invariant: along any interleaving of appends and drains,
the shared buffer is exactly the rolled suffix of the window of chunks
appended since the previous drain. -/
theorem runBuf_inv (m : Nat) (hm : 1 ≤ m) :
    ∀ (ops : List BufOp) (s : BufState),
      s.buffer = s.window.drop (s.window.length - m) →
      (runBuf m s ops).buffer =
        (runBuf m s ops).window.drop ((runBuf m s ops).window.length - m)
  | [], s, h => h
  | op :: ops, s, h => by
    rw [runBuf, List.foldl_cons]
    apply runBuf_inv m hm ops
    cases op with
    | app c =>
      simp only [stepBuf]
      rw [h, rollingAppend_drop m hm]
    | drain => simp [stepBuf, drainAll]

/-- A cycle whose drained frame count is at most 5 does nothing
(line 506 guard). -/
theorem processCycle_skip_small (src tgt : Option String) (last : String)
    (inp : CycleInput) (hf : inp.frames.length ≤ 5) :
    processCycle src tgt last inp = ⟨last, none⟩ := by
  unfold processCycle
  rw [if_pos hf]

/-- A cycle whose transcription is empty after stripping does nothing
(lines 528-530); this covers a raising STT call, which the transcriber
already converts to the empty transcription. -/
theorem processCycle_skip_empty (src tgt : Option String) (last : String)
    (inp : CycleInput) (ht : pyStrip (transcribeResult inp.stt).1 = "") :
    processCycle src tgt last inp = ⟨last, none⟩ := by
  unfold processCycle
  by_cases hf : inp.frames.length ≤ 5
  · rw [if_pos hf]
  · rw [if_neg hf, if_pos ht]

/-- A cycle whose stripped transcription equals the stripped previous
transcription does nothing (lines 533-535). -/
theorem processCycle_skip_dup (src tgt : Option String) (last : String)
    (inp : CycleInput) (hd : pyStrip (transcribeResult inp.stt).1 = pyStrip last) :
    processCycle src tgt last inp = ⟨last, none⟩ := by
  unfold processCycle
  by_cases hf : inp.frames.length ≤ 5
  · rw [if_pos hf]
  · rw [if_neg hf]
    by_cases ht : pyStrip (transcribeResult inp.stt).1 = ""
    · rw [if_pos ht]
    · rw [if_neg ht, if_pos hd]

/-- An accepted cycle: enough frames, a nonempty stripped transcription
differing from the previous one.  The carried state becomes the stripped
transcription, and the callback (when registered) receives the raw
transcription, the routed translation and the raw detected language. -/
theorem processCycle_accept (src tgt : Option String) (last : String)
    (inp : CycleInput) (t det : String)
    (hstt : inp.stt = .returns t det)
    (hf : 5 < inp.frames.length)
    (ht : pyStrip t ≠ "")
    (hd : pyStrip t ≠ pyStrip last) :
    processCycle src tgt last inp =
      ⟨pyStrip t,
        match inp.callback with
        | .absent => none
        | _ =>
          some ⟨t,
            match routeDecision tgt t (standardizeLang det) with
            | some _ => some (translateResult t inp.translationApi)
            | none => none,
            det⟩⟩ := by
  unfold processCycle
  rw [if_neg (by omega), hstt]
  simp only [transcribeResult]
  rw [if_neg ht, if_neg hd]
  cases inp.callback <;> rfl

/-- With no configured target language the live loop routes no translation
(`if target_lang and ...` fails on a falsy `target_lang`). -/
theorem routeDecision_none_target (t : String) (d : Option String) :
    routeDecision none t d = none := by
  simp [routeDecision, truthy]

/-! ## Claims -/

/-- C4: after every sequence of continuous-mode appends the rolling buffer
holds at most `max_frames` chunks, it is a suffix of the appended sequence
(so only the oldest chunks are ever evicted), and it is exactly the last
`max_frames` chunks appended. -/
theorem C4_rolling_bound (m : Nat) (hm : 1 ≤ m) (chunks : List Nat) :
    (rollingRecord m chunks).length ≤ m ∧
    rollingRecord m chunks <:+ chunks ∧
    rollingRecord m chunks = chunks.drop (chunks.length - m) := by
  refine ⟨?_, ?_, rollingRecord_eq m hm chunks⟩
  · rw [rollingRecord_eq m hm chunks, List.length_drop]
    omega
  · rw [rollingRecord_eq m hm chunks]
    exact List.drop_suffix _ _

/-- Witness for C4 at the configured bound (129 frames) with 130 appended
chunks. -/
theorem C4_rolling_bound_witness :
    1 ≤ defaultMaxFrames ∧
    ((rollingRecord defaultMaxFrames (List.range 130)).length ≤ defaultMaxFrames ∧
     rollingRecord defaultMaxFrames (List.range 130) <:+ List.range 130 ∧
     rollingRecord defaultMaxFrames (List.range 130) =
       (List.range 130).drop ((List.range 130).length - defaultMaxFrames)) :=
  ⟨by decide, C4_rolling_bound defaultMaxFrames (by decide) (List.range 130)⟩

set_option maxRecDepth 4000 in
/-- C5 counterexample: an interleaving of 130 appends (at the configured
bound of 129) followed by a drain.  The window of chunks appended since the
previous drain is `List.range 130`, but the drain does not return it — the
oldest chunk was evicted by the rolling bound, so a drain does not always
return exactly what was appended since the previous drain. -/
theorem C5_counterexample :
    (runBuf defaultMaxFrames initBufState ((List.range 130).map BufOp.app)).window =
      List.range 130 ∧
    (drainAll
        (runBuf defaultMaxFrames initBufState ((List.range 130).map BufOp.app)).buffer).1 ≠
      List.range 130 := by
  constructor
  · decide
  · decide

/-- C5 (amended): along every interleaving of appends and drains, a drain
returns exactly the rolled suffix of the chunks appended since the previous
drain — all of them whenever their number is within the bound — leaves the
buffer empty, and an empty drain returns the empty sequence. -/
theorem C5_drain_atomic (m : Nat) (hm : 1 ≤ m) (ops : List BufOp) :
    (drainAll (runBuf m initBufState ops).buffer).1 =
      (runBuf m initBufState ops).window.drop
        ((runBuf m initBufState ops).window.length - m) ∧
    (drainAll (runBuf m initBufState ops).buffer).2 = [] ∧
    drainAll ([] : List Nat) = ([], []) ∧
    (drainAll (runBuf m initBufState ops).buffer).1 <:+ (runBuf m initBufState ops).window := by
  have hinv := runBuf_inv m hm ops initBufState (by simp [initBufState])
  refine ⟨hinv, rfl, rfl, ?_⟩
  rw [show (drainAll (runBuf m initBufState ops).buffer).1 = (runBuf m initBufState ops).buffer
        from rfl,
      hinv]
  exact List.drop_suffix _ _

/-- Witness for C5 at the configured bound on the interleaving
append 7, append 8, drain, append 9. -/
theorem C5_drain_atomic_witness :
    1 ≤ defaultMaxFrames ∧
    ((drainAll (runBuf defaultMaxFrames initBufState
          [BufOp.app 7, BufOp.app 8, BufOp.drain, BufOp.app 9]).buffer).1 =
        (runBuf defaultMaxFrames initBufState
          [BufOp.app 7, BufOp.app 8, BufOp.drain, BufOp.app 9]).window.drop
          ((runBuf defaultMaxFrames initBufState
            [BufOp.app 7, BufOp.app 8, BufOp.drain, BufOp.app 9]).window.length -
              defaultMaxFrames) ∧
     (drainAll (runBuf defaultMaxFrames initBufState
          [BufOp.app 7, BufOp.app 8, BufOp.drain, BufOp.app 9]).buffer).2 = [] ∧
     drainAll ([] : List Nat) = ([], []) ∧
     (drainAll (runBuf defaultMaxFrames initBufState
          [BufOp.app 7, BufOp.app 8, BufOp.drain, BufOp.app 9]).buffer).1 <:+
        (runBuf defaultMaxFrames initBufState
          [BufOp.app 7, BufOp.app 8, BufOp.drain, BufOp.app 9]).window) :=
  ⟨by decide, C5_drain_atomic defaultMaxFrames (by decide)
    [BufOp.app 7, BufOp.app 8, BufOp.drain, BufOp.app 9]⟩

/-- C8 counterexample: the unmapped input "klingon" is not sent to
`unknown` (absent); the standardiser passes it through lowercased. -/
theorem C8_counterexample :
    standardizeLang "klingon" = some "klingon" ∧ standardizeLang "klingon" ≠ none := by
  constructor
  · decide
  · decide

/-- C8 (amended): the standardiser is a pure total function that maps,
case-insensitively, the fixed table of nine full language names to their
two-letter codes; every other nonempty input is passed through lowercased
(so two-letter codes such as "EN" map to themselves), and the empty input
yields the absent language. -/
theorem C8_normalizer (raw : String) (hne : raw ≠ "")
    (hmiss : language_code_map.lookup (pyLower raw) = none) :
    standardizeLang raw = some (pyLower raw) ∧
    standardizeLang "" = none ∧
    standardizeLang "English" = some "en" ∧
    standardizeLang "english" = some "en" ∧
    standardizeLang "EN" = some "en" ∧
    standardizeLang "Russian" = some "ru" ∧
    standardizeLang "russian" = some "ru" ∧
    standardizeLang "japanese" = some "ja" ∧
    standardizeLang "french" = some "fr" ∧
    standardizeLang "german" = some "de" ∧
    standardizeLang "spanish" = some "es" ∧
    standardizeLang "italian" = some "it" ∧
    standardizeLang "chinese" = some "zh" ∧
    standardizeLang "korean" = some "ko" := by
  refine ⟨?_, by decide, by decide, by decide, by decide, by decide, by decide, by decide,
    by decide, by decide, by decide, by decide, by decide, by decide⟩
  unfold standardizeLang
  rw [if_pos hne]
  simp only [hmiss]

/-- Witness for C8 at the unmapped input "Klingon". -/
theorem C8_normalizer_witness :
    ("Klingon" : String) ≠ "" ∧
    language_code_map.lookup (pyLower "Klingon") = none ∧
    (standardizeLang "Klingon" = some (pyLower "Klingon") ∧
     standardizeLang "" = none ∧
     standardizeLang "English" = some "en" ∧
     standardizeLang "english" = some "en" ∧
     standardizeLang "EN" = some "en" ∧
     standardizeLang "Russian" = some "ru" ∧
     standardizeLang "russian" = some "ru" ∧
     standardizeLang "japanese" = some "ja" ∧
     standardizeLang "french" = some "fr" ∧
     standardizeLang "german" = some "de" ∧
     standardizeLang "spanish" = some "es" ∧
     standardizeLang "italian" = some "it" ∧
     standardizeLang "chinese" = some "zh" ∧
     standardizeLang "korean" = some "ko") :=
  ⟨by decide, by decide, C8_normalizer "Klingon" (by decide) (by decide)⟩

/-- C1 counterexample: with configured target "fr" and detected language
English, the claim's forced-bidirectional rule demands a translation from
en to ru regardless of the configured target, but the code translates
nothing: the routing keys on the en/ru pairing with the target itself. -/
theorem C1_counterexample :
    standardizeLang "english" = some "en" ∧
    routeDecision (some "fr") "Hello" (standardizeLang "english") = none ∧
    routeDecision (some "fr") "Hello" (standardizeLang "english") ≠ some ("en", "ru") := by
  refine ⟨by decide, by decide, by decide⟩

/-- C1 (amended): with a configured target, a detected language code and a
nonempty transcription, the routing is: detected en with target ru gives
en→ru; detected ru with target en gives ru→en; a detected language outside
en and ru goes to the configured target; detected en or ru with any other
target yields no translation. -/
theorem C1_routing (tgt det t : String) (htgt : tgt ≠ "") (ht : t ≠ "")
    (hdet : det ≠ "") (hden : det ≠ "en") (hdru : det ≠ "ru") :
    routeDecision (some tgt) t (some det) = some (det, tgt) ∧
    routeDecision (some "ru") t (some "en") = some ("en", "ru") ∧
    routeDecision (some "en") t (some "ru") = some ("ru", "en") ∧
    routeDecision (some tgt) t (some "en") =
      (if tgt = "ru" then some ("en", "ru") else none) ∧
    routeDecision (some tgt) t (some "ru") =
      (if tgt = "en" then some ("ru", "en") else none) := by
  have htr : truthy (some tgt) = true := by simp [truthy, htgt]
  have hdt : truthy (some det) = true := by simp [truthy, hdet]
  refine ⟨?_, ?_, ?_, ?_, ?_⟩
  · unfold routeDecision
    rw [if_pos ⟨htr, ht, hdt⟩]
    simp only [Option.getD_some]
    rw [if_neg (fun h => hden h.2), if_neg (fun h => hdru h.2), if_pos ⟨hden, hdru⟩]
  · unfold routeDecision
    rw [if_pos ⟨by decide, ht, by decide⟩]
    decide
  · unfold routeDecision
    rw [if_pos ⟨by decide, ht, by decide⟩]
    decide
  · unfold routeDecision
    rw [if_pos ⟨htr, ht, by decide⟩]
    simp only [Option.getD_some]
    by_cases hru : tgt = "ru"
    · subst hru
      decide
    · rw [if_neg (fun h => hru h.1), if_neg (fun h => absurd h.2 (by decide)),
        if_neg (fun h => h.1 rfl), if_neg hru]
  · unfold routeDecision
    rw [if_pos ⟨htr, ht, by decide⟩]
    simp only [Option.getD_some]
    by_cases hen : tgt = "en"
    · subst hen
      decide
    · rw [if_neg (fun h => absurd h.2 (by decide)), if_neg (fun h => hen h.1),
        if_neg (fun h => h.2 rfl), if_neg hen]

/-- Witness for C1 at target "en", detected "ja", transcription "Hello". -/
theorem C1_routing_witness :
    ("en" : String) ≠ "" ∧ ("Hello" : String) ≠ "" ∧ ("ja" : String) ≠ "" ∧
    (routeDecision (some "en") "Hello" (some "ja") = some ("ja", "en") ∧
     routeDecision (some "ru") "Hello" (some "en") = some ("en", "ru") ∧
     routeDecision (some "en") "Hello" (some "ru") = some ("ru", "en") ∧
     routeDecision (some "en") "Hello" (some "en") =
       (if ("en" : String) = "ru" then some ("en", "ru") else none) ∧
     routeDecision (some "en") "Hello" (some "ru") =
       (if ("en" : String) = "en" then some ("ru", "en") else none)) :=
  ⟨by decide, by decide, by decide,
    C1_routing "en" "ja" "Hello" (by decide) (by decide) (by decide) (by decide) (by decide)⟩

/-- C2 counterexample: a live cycle with no configured target, detected
language English and transcription "Hello" emits its result with no
translation at all, where the claim's default-target fallback demands an
en→ru translation. -/
theorem C2_counterexample :
    (processCycle none none ""
        ⟨List.range 6, SttOutcome.returns "Hello" "english",
          ApiOutcome.returns "Privet", CallbackBehavior.succeeds⟩).emitted =
      some ⟨"Hello", none, "english"⟩ ∧
    routeDecision none "Hello" (some "en") = none := by
  refine ⟨by decide, by decide⟩

/-- C2 (amended): in every live cycle with no configured target language no
translation is routed — any emitted LiveResult carries an absent
translation.  The default-target fallback lives only in the one-shot
`process_voice` path, where it fires on detected-language names containing
"english" (en→ru) or "russian" (ru→en) and on nothing else — not on the
bare code "en". -/
theorem C2_no_target_no_translation (src : Option String) (last : String)
    (inp : CycleInput) (r : LiveResult)
    (h : (processCycle src none last inp).emitted = some r) :
    r.translation = none ∧
    processVoiceFallbackPair "english" = some ("en", "ru") ∧
    processVoiceFallbackPair "russian" = some ("ru", "en") ∧
    processVoiceFallbackPair "en" = none ∧
    processVoiceFallbackPair "ja" = none := by
  refine ⟨?_, by decide, by decide, by decide, by decide⟩
  by_cases hf : inp.frames.length ≤ 5
  · rw [processCycle_skip_small src none last inp hf] at h
    simp at h
  · rcases hstt : inp.stt with _ | ⟨t, det⟩
    · rw [processCycle_skip_empty src none last inp (by rw [hstt]; rfl)] at h
      simp at h
    · by_cases ht : pyStrip t = ""
      · rw [processCycle_skip_empty src none last inp (by rw [hstt]; exact ht)] at h
        simp at h
      · by_cases hd : pyStrip t = pyStrip last
        · rw [processCycle_skip_dup src none last inp (by rw [hstt]; exact hd)] at h
          simp at h
        · rw [processCycle_accept src none last inp t det hstt (by omega) ht hd] at h
          rcases hcb : inp.callback with _ | _ | _ <;> rw [hcb] at h
          · simp at h
          all_goals
            rw [routeDecision_none_target] at h
            simp only [Option.some_inj] at h
            rw [← h]

/-- Witness for C2 on a concrete emitting cycle. -/
theorem C2_no_target_no_translation_witness :
    (processCycle none none ""
        ⟨List.range 6, SttOutcome.returns "Good morning" "english",
          ApiOutcome.returns "X", CallbackBehavior.succeeds⟩).emitted =
      some ⟨"Good morning", none, "english"⟩ ∧
    ((⟨"Good morning", none, "english"⟩ : LiveResult).translation = none ∧
     processVoiceFallbackPair "english" = some ("en", "ru") ∧
     processVoiceFallbackPair "russian" = some ("ru", "en") ∧
     processVoiceFallbackPair "en" = none ∧
     processVoiceFallbackPair "ja" = none) :=
  ⟨by decide,
    C2_no_target_no_translation none ""
      ⟨List.range 6, SttOutcome.returns "Good morning" "english",
        ApiOutcome.returns "X", CallbackBehavior.succeeds⟩
      ⟨"Good morning", none, "english"⟩ (by decide)⟩

/-- C3: over two consecutive cycles with enough audio, successful
transcriptions `t1` then `t2` (both nonempty after stripping) and a
registered callback, exactly one LiveResult is emitted when the stripped
transcripts coincide, and one per cycle when they differ. -/
theorem C3_dedup (t1 t2 : String) (h1 : pyStrip t1 ≠ "") (h2 : pyStrip t2 ≠ "") :
    runLoop none none ""
        [⟨List.range 6, SttOutcome.returns t1 "english",
            ApiOutcome.returns "", CallbackBehavior.succeeds⟩,
         ⟨List.range 6, SttOutcome.returns t2 "english",
            ApiOutcome.returns "", CallbackBehavior.succeeds⟩] =
      (if pyStrip t2 = pyStrip t1 then
        [⟨t1, none, "english"⟩]
      else [⟨t1, none, "english"⟩, ⟨t2, none, "english"⟩]) := by
  have hacc1 := processCycle_accept none none ""
    ⟨List.range 6, SttOutcome.returns t1 "english",
      ApiOutcome.returns "", CallbackBehavior.succeeds⟩ t1 "english" rfl
    (by show 5 < (List.range 6).length; decide) h1
    (by rw [show pyStrip "" = "" from rfl]; exact h1)
  rw [runLoop, hacc1]
  simp only [routeDecision_none_target]
  by_cases hdup : pyStrip t2 = pyStrip t1
  · have hskip := processCycle_skip_dup none none (pyStrip t1)
      ⟨List.range 6, SttOutcome.returns t2 "english",
        ApiOutcome.returns "", CallbackBehavior.succeeds⟩
      (by rw [pyStrip_idem]; exact hdup)
    rw [runLoop, hskip, if_pos hdup]
    rfl
  · have hacc2 := processCycle_accept none none (pyStrip t1)
      ⟨List.range 6, SttOutcome.returns t2 "english",
        ApiOutcome.returns "", CallbackBehavior.succeeds⟩ t2 "english" rfl
      (by show 5 < (List.range 6).length; decide) h2 (by rw [pyStrip_idem]; exact hdup)
    rw [runLoop, hacc2, if_neg hdup]
    simp only [routeDecision_none_target]
    rfl

/-- Witness for C3 with "hello" then "hello" (one emission) and "hello"
then "hello world" (two emissions). -/
theorem C3_dedup_witness :
    pyStrip "hello" ≠ "" ∧ pyStrip "hello world" ≠ "" ∧
    runLoop none none ""
        [⟨List.range 6, SttOutcome.returns "hello" "english",
            ApiOutcome.returns "", CallbackBehavior.succeeds⟩,
         ⟨List.range 6, SttOutcome.returns "hello" "english",
            ApiOutcome.returns "", CallbackBehavior.succeeds⟩] =
      [⟨"hello", none, "english"⟩] ∧
    runLoop none none ""
        [⟨List.range 6, SttOutcome.returns "hello" "english",
            ApiOutcome.returns "", CallbackBehavior.succeeds⟩,
         ⟨List.range 6, SttOutcome.returns "hello world" "english",
            ApiOutcome.returns "", CallbackBehavior.succeeds⟩] =
      [⟨"hello", none, "english"⟩, ⟨"hello world", none, "english"⟩] := by
  refine ⟨by decide, by decide, ?_, ?_⟩
  · have h := C3_dedup "hello" "hello" (by decide) (by decide)
    rwa [if_pos rfl] at h
  · have h := C3_dedup "hello" "hello world" (by decide) (by decide)
    rwa [if_neg (by decide)] at h

/-- C6: a cycle whose speech-to-text call raises, or returns an empty or
whitespace-only transcript, fires no callback, leaves the deduplication
state untouched, and the loop goes on to process the remaining cycles
exactly as it would have without the failed cycle. -/
theorem C6_stt_failure (src tgt : Option String) (last : String)
    (inp : CycleInput) (rest : List CycleInput)
    (h : inp.stt = SttOutcome.raises ∨ pyStrip (transcribeResult inp.stt).1 = "") :
    processCycle src tgt last inp = ⟨last, none⟩ ∧
    runLoop src tgt last (inp :: rest) = runLoop src tgt last rest := by
  have hskip : processCycle src tgt last inp = ⟨last, none⟩ := by
    rcases h with h | h
    · exact processCycle_skip_empty src tgt last inp (by rw [h]; rfl)
    · exact processCycle_skip_empty src tgt last inp h
  refine ⟨hskip, ?_⟩
  rw [runLoop, hskip]
  rfl

/-- Witness for C6: a raising STT call followed by a successful cycle. -/
theorem C6_stt_failure_witness :
    ((⟨List.range 6, SttOutcome.raises, ApiOutcome.returns "", CallbackBehavior.succeeds⟩ :
        CycleInput).stt = SttOutcome.raises ∨
      pyStrip (transcribeResult (⟨List.range 6, SttOutcome.raises, ApiOutcome.returns "",
        CallbackBehavior.succeeds⟩ : CycleInput).stt).1 = "") ∧
    processCycle none none ""
        ⟨List.range 6, SttOutcome.raises, ApiOutcome.returns "", CallbackBehavior.succeeds⟩ =
      ⟨"", none⟩ ∧
    runLoop none none ""
        [⟨List.range 6, SttOutcome.raises, ApiOutcome.returns "", CallbackBehavior.succeeds⟩,
         ⟨List.range 6, SttOutcome.returns "hi" "english",
            ApiOutcome.returns "", CallbackBehavior.succeeds⟩] =
      runLoop none none ""
        [⟨List.range 6, SttOutcome.returns "hi" "english",
            ApiOutcome.returns "", CallbackBehavior.succeeds⟩] :=
  ⟨Or.inl rfl,
    C6_stt_failure none none ""
      ⟨List.range 6, SttOutcome.raises, ApiOutcome.returns "", CallbackBehavior.succeeds⟩
      [⟨List.range 6, SttOutcome.returns "hi" "english",
          ApiOutcome.returns "", CallbackBehavior.succeeds⟩]
      (Or.inl rfl)⟩

/-- C7: when routing indicates a translation and the translation call
fails, the cycle still emits a LiveResult through the callback carrying the
transcript and the raw detected language, with a translation the display
layer treats as absent (the empty string produced by the failure handler). -/
theorem C7_translation_failure (src : Option String) (tgt t det last : String)
    (frames : List Nat)
    (hf : 5 < frames.length) (ht : pyStrip t ≠ "") (hd : pyStrip t ≠ pyStrip last)
    (hroute : (routeDecision (some tgt) t (standardizeLang det)).isSome = true) :
    processCycle src (some tgt) last
        ⟨frames, SttOutcome.returns t det, ApiOutcome.raises, CallbackBehavior.succeeds⟩ =
      ⟨pyStrip t, some ⟨t, some "", det⟩⟩ ∧
    translationAbsent (some "") = true := by
  refine ⟨?_, rfl⟩
  rw [processCycle_accept src (some tgt) last _ t det rfl hf ht hd]
  obtain ⟨pr, hpr⟩ := Option.isSome_iff_exists.mp hroute
  rw [hpr]
  have htrans : translateResult t ApiOutcome.raises = "" := by
    unfold translateResult
    rw [if_neg ht]
  rw [htrans]

/-- Witness for C7 with target "ru", detected "english", transcript
"Hello" and a raising translation call. -/
theorem C7_translation_failure_witness :
    5 < (List.range 6).length ∧ pyStrip "Hello" ≠ "" ∧
    pyStrip "Hello" ≠ pyStrip "" ∧
    (routeDecision (some "ru") "Hello" (standardizeLang "english")).isSome = true ∧
    processCycle none (some "ru") ""
        ⟨List.range 6, SttOutcome.returns "Hello" "english",
          ApiOutcome.raises, CallbackBehavior.succeeds⟩ =
      ⟨pyStrip "Hello", some ⟨"Hello", some "", "english"⟩⟩ ∧
    translationAbsent (some "") = true := by
  refine ⟨by decide, by decide, by decide, by decide, ?_, ?_⟩
  · exact (C7_translation_failure none "ru" "Hello" "english" "" (List.range 6)
      (by decide) (by decide) (by decide) (by decide)).1
  · exact (C7_translation_failure none "ru" "Hello" "english" "" (List.range 6)
      (by decide) (by decide) (by decide) (by decide)).2

/-- C9: starting a live session twice leaves exactly one active
capture/processing pair (the second start is a no-op); stopping twice is a
no-op the second time; a stop always clears the flags and returns to the
idle state, independently of whether the bounded thread join completed. -/
theorem C9_start_stop_idempotent (s : VPState) (b b1 b2 : Bool) :
    start_live_transcription (start_live_transcription s) = start_live_transcription s ∧
    (start_live_transcription initialVPState).activePairs = 1 ∧
    (start_live_transcription initialVPState).live_mode = true ∧
    stop_live_transcription (stop_live_transcription s b1) b2 =
      stop_live_transcription s b1 ∧
    (stop_live_transcription s b).live_mode = false ∧
    stop_live_transcription s b1 = stop_live_transcription s b2 ∧
    (stop_live_transcription (start_live_transcription s) b).should_process = false ∧
    (stop_live_transcription (start_live_transcription s) b).activePairs =
      (start_live_transcription s).activePairs - 1 := by
  unfold start_live_transcription stop_live_transcription initialVPState
  rcases s with ⟨lm, sp, rec, n⟩
  cases lm <;> simp

/-- C10: in an accepted cycle the deduplication state is set to the
stripped transcript whatever the callback does (absent, succeeding or
raising), an immediately following cycle with the same stripped transcript
is suppressed, and a raising callback does not stop the loop: the remaining
cycles are processed from the updated state. -/
theorem C10_dedup_update_before_callback (src tgt : Option String)
    (last t det t2 det2 : String) (frames frames2 : List Nat)
    (api api2 : ApiOutcome) (cb cb2 : CallbackBehavior) (rest : List CycleInput)
    (hf : 5 < frames.length) (ht : pyStrip t ≠ "") (hd : pyStrip t ≠ pyStrip last)
    (ht2 : pyStrip t2 = pyStrip t) :
    (processCycle src tgt last ⟨frames, SttOutcome.returns t det, api, cb⟩).last =
      pyStrip t ∧
    (processCycle src tgt (pyStrip t)
        ⟨frames2, SttOutcome.returns t2 det2, api2, cb2⟩).emitted = none ∧
    runLoop src none last
        (⟨frames, SttOutcome.returns t det, api, CallbackBehavior.raises⟩ :: rest) =
      ⟨t, none, det⟩ :: runLoop src none (pyStrip t) rest := by
  refine ⟨?_, ?_, ?_⟩
  · rw [processCycle_accept src tgt last _ t det rfl hf ht hd]
  · have hdup : pyStrip (transcribeResult
        (⟨frames2, SttOutcome.returns t2 det2, api2, cb2⟩ : CycleInput).stt).1 =
        pyStrip (pyStrip t) := by
      simp only [transcribeResult]
      rw [pyStrip_idem]
      exact ht2
    rw [processCycle_skip_dup src tgt (pyStrip t) _ hdup]
  · rw [runLoop, processCycle_accept src none last _ t det rfl hf ht hd]
    simp only [routeDecision_none_target]
    rfl

/-- Witness for C10 with transcript " hi " repeated as "hi", a raising
callback on the first cycle and a raising translation API. -/
theorem C10_dedup_update_before_callback_witness :
    5 < (List.range 6).length ∧ pyStrip " hi " ≠ "" ∧
    pyStrip " hi " ≠ pyStrip "" ∧ pyStrip "hi" = pyStrip " hi " ∧
    (processCycle none none ""
        ⟨List.range 6, SttOutcome.returns " hi " "english",
          ApiOutcome.raises, CallbackBehavior.raises⟩).last = pyStrip " hi " ∧
    (processCycle none none (pyStrip " hi ")
        ⟨List.range 7, SttOutcome.returns "hi" "russian",
          ApiOutcome.returns "", CallbackBehavior.absent⟩).emitted = none ∧
    runLoop none none ""
        [⟨List.range 6, SttOutcome.returns " hi " "english",
            ApiOutcome.raises, CallbackBehavior.raises⟩] =
      ⟨" hi ", none, "english"⟩ :: runLoop none none (pyStrip " hi ") [] := by
  refine ⟨by decide, by decide, by decide, by decide, ?_⟩
  have h := C10_dedup_update_before_callback none none "" " hi " "english" "hi" "russian"
    (List.range 6) (List.range 7) ApiOutcome.raises (ApiOutcome.returns "")
    CallbackBehavior.raises CallbackBehavior.absent []
    (by decide) (by decide) (by decide) (by decide)
  exact ⟨h.1, h.2.1, h.2.2⟩

end VrSoftware
